import Mathlib

/-
Verification of the persistence and query layer of the remote-classroom
application. The layer is embedded shallowly: the MongoDB collections and
the SQL tables of the web layer become lists of records inside one Store,
and every operation of src/database.py and of the persistence code inlined
in the route handlers of src/app.py becomes a pure function on Store.
-/

namespace RemoteClassroom

/-- Scalar values as they occur in the stored documents and in queries: a
native ObjectId key (carrying its 12-byte payload as its 24-digit lower-case
hex rendering), a plain string, or an integer. Query filters compare these
values for equality, and an ObjectId value never equals a plain string
value. -/
inductive Value where
  | oid (hex : String)
  | str (s : String)
  | int (n : Int)
  deriving DecidableEq, Repr

/-- Whether a string is accepted by the ObjectId constructor of bson: a
24-character hexadecimal string (either case). Any other string makes the
constructor raise InvalidId. -/
def isValidObjectIdHex (s : String) : Bool :=
  s.length == 24 &&
    s.toList.all (fun c => c.isDigit || ('a' ≤ c && c ≤ 'f') || ('A' ≤ c && c ≤ 'F'))

/-- Embeds to_object_id of src/database.py lines 10 to 18. A string input is
passed to the ObjectId constructor; the surrounding try/except catches the
InvalidId exception of a malformed string and returns the original value
unchanged, and a non-string input is returned unchanged by the isinstance
branch. The function therefore never raises. A valid hex string becomes the
ObjectId with that payload (hex normalized to lower case, as the ObjectId
constructor stores bytes). -/
def to_object_id (value : Value) : Value :=
  match value with
  | .str s => if isValidObjectIdHex s then .oid s.toLower else .str s
  | v => v

/-- A document of the users collection (fields of create_user in
src/database.py; password_hash and created_at carry no claim and are
omitted). The id field is the primary key _id. -/
structure UserDoc where
  id : Value
  username : String
  role : String
  deriving DecidableEq, Repr

/-- A document of the courses collection (fields of create_course in
src/database.py; created_at omitted). -/
structure CourseDoc where
  id : Value
  title : String
  description : String
  teacher_id : Value
  deriving DecidableEq, Repr

/-- A document of the enrollment collection (fields of enroll_student in
src/database.py; enrolled_at omitted). -/
structure EnrollmentDoc where
  user_id : Value
  course_id : Value
  deriving DecidableEq, Repr

/-- A row of the attendance collection (fields of record_attendance in
src/database.py; recorded_at omitted). -/
structure AttendanceRow where
  student_id : Value
  course_id : Value
  date : String
  status : String
  deriving DecidableEq, Repr

/-- A document of the posts collection (fields of create_post in
src/database.py), with the timestamp abstracted to a Nat so that the
ordering claims are statable. -/
structure PostDoc where
  id : Value
  course_id : Value
  user_id : Value
  content : String
  timestamp : Nat
  deriving DecidableEq, Repr

/-- A document of the replies collection (fields of create_reply in
src/database.py). -/
structure ReplyDoc where
  id : Value
  post_id : Value
  user_id : Value
  content : String
  timestamp : Nat
  deriving DecidableEq, Repr

/-- The whole store: one list per collection created by init_db in
src/database.py line 61 (materials carries no claim and is omitted). -/
structure Store where
  users : List UserDoc
  courses : List CourseDoc
  enrollment : List EnrollmentDoc
  attendance : List AttendanceRow
  posts : List PostDoc
  replies : List ReplyDoc
  deriving DecidableEq, Repr

/-- The uniqueness invariants init_db of src/database.py establishes on
lines 68 to 70 together with the primary-key uniqueness of _id: user ids
are pairwise distinct and no two enrollment rows share the same
(user_id, course_id) pair. -/
def Store.wf (st : Store) : Prop :=
  (st.users.map (fun u => u.id)).Nodup ∧
  (st.enrollment.map (fun e => (e.user_id, e.course_id))).Nodup

instance (st : Store) : Decidable st.wf := by
  unfold Store.wf
  infer_instance

/-- Embeds get_user_by_id of src/database.py lines 92 to 102: a string id is
passed to the ObjectId constructor inside the try block, so a malformed
string raises InvalidId, the except branch catches it and the function
returns None; otherwise the users collection is searched by _id. -/
def get_user_by_id (st : Store) (user_id : Value) : Option UserDoc :=
  match user_id with
  | .str s =>
      if isValidObjectIdHex s then
        st.users.find? (fun u => decide (u.id = Value.oid s.toLower))
      else none
  | v => st.users.find? (fun u => decide (u.id = v))

/-- Errors the pymongo driver raises that the embedded operations can
surface: the E11000 duplicate-key error of a unique index, and the InvalidId
error of the ObjectId constructor. -/
inductive MongoError where
  | duplicateKey
  | invalidId
  deriving DecidableEq, Repr

/-- Embeds create_course of src/database.py lines 109 to 126. A string
teacher_id goes through the ObjectId constructor; on a malformed string the
except branch logs and re-raises, so InvalidId propagates. In every other
case the course document is inserted unconditionally: the function performs
no check that teacher_id resolves to any user, let alone one with the
teacher role. The fresh _id the driver generates is passed in as newId. -/
def create_course (st : Store) (title description : String) (teacher_id : Value)
    (newId : Value) : Except MongoError (Value × Store) :=
  match teacher_id with
  | .str s =>
      if isValidObjectIdHex s then
        Except.ok (newId, { st with courses := st.courses ++
          [{ id := newId, title := title, description := description,
             teacher_id := Value.oid s.toLower }] })
      else Except.error MongoError.invalidId
  | t =>
      Except.ok (newId, { st with courses := st.courses ++
        [{ id := newId, title := title, description := description, teacher_id := t }] })

/-- Embeds the create_course route of src/app.py lines 152 to 171: if the
logged-in user does not have the teacher role the route flashes a message
and redirects without touching the store (none); otherwise it inserts the
course row owned by the logged-in user. -/
def create_course_route (st : Store) (current_user : UserDoc)
    (title description : String) (newId : Value) : Option Store :=
  if current_user.role = "teacher" then
    some { st with courses := st.courses ++
      [{ id := newId, title := title, description := description,
         teacher_id := current_user.id }] }
  else none

/-- A course together with its computed enrolled_count, as the aggregation
of get_teacher_courses returns it. -/
structure CourseAgg where
  course : CourseDoc
  enrolled_count : Nat
  deriving DecidableEq, Repr

/-- Embeds get_teacher_courses of src/database.py lines 139 to 152: the
pipeline matches courses on teacher_id, performs a lookup of the enrollment
collection on course_id into an enrollments array (a left outer join, so a
course with no enrollments keeps an empty array and is not dropped), adds
enrolled_count as the size of that array and projects the array away. -/
def get_teacher_courses (st : Store) (teacher_id : Value) : List CourseAgg :=
  (st.courses.filter (fun c => decide (c.teacher_id = to_object_id teacher_id))).map
    (fun c =>
      let enrollments := st.enrollment.filter (fun e => decide (e.course_id = c.id))
      { course := c, enrolled_count := enrollments.length })

/-- The arrayElemAt 0 of the users lookup on teacher_id, shared by
get_student_courses and get_available_courses of src/database.py. -/
def lookupTeacherName (st : Store) (c : CourseDoc) : Option String :=
  (st.users.find? (fun u => decide (u.id = c.teacher_id))).map (fun u => u.username)

/-- A course view as get_student_courses returns it: the course, the looked
up teacher username, and the field named present_count (which the pipeline
computes as the size of the enrollments array of the course). -/
structure StudentCourseView where
  course : CourseDoc
  teacher_name : Option String
  present_count : Nat
  deriving DecidableEq, Repr

/-- Embeds get_student_courses of src/database.py lines 154 to 182: lookup
of all enrollment documents of each course into an enrollments array, match
keeping the courses whose array contains a document with user_id equal to
the normalized student id, then teacher lookup and projection. -/
def get_student_courses (st : Store) (student_id : Value) : List StudentCourseView :=
  ((st.courses.map (fun c =>
        (c, st.enrollment.filter (fun e => decide (e.course_id = c.id))))).filter
      (fun ce => ce.2.any (fun e => decide (e.user_id = to_object_id student_id)))).map
    (fun ce =>
      { course := ce.1, teacher_name := lookupTeacherName st ce.1,
        present_count := ce.2.length })

/-- A course view as get_available_courses returns it. -/
structure AvailableCourseView where
  course : CourseDoc
  teacher_name : Option String
  deriving DecidableEq, Repr

/-- Embeds get_available_courses of src/database.py lines 184 to 208. The
lookup declares the variable course_id in its let clause, but the match
stage of its sub-pipeline is written in plain query syntax, and plain query
syntax does not substitute let variables: only an expr operator does. The
filter therefore compares the course_id field of each enrollment document
with the two-dollar literal STRING given in the source, which no enrollment
document ever carries as its course_id, so the per-course enrollments array
is always empty and the size-zero match keeps every course. -/
def get_available_courses (st : Store) (student_id : Value) : List AvailableCourseView :=
  ((st.courses.map (fun c =>
        (c, st.enrollment.filter (fun e =>
              decide (e.user_id = to_object_id student_id ∧
                e.course_id = Value.str "$$course_id"))))).filter
      (fun ce => decide (ce.2.length = 0))).map
    (fun ce => { course := ce.1, teacher_name := lookupTeacherName st ce.1 })

/-- Inserts one enrollment row, the shared write of the enroll route and of
enroll_student. -/
def insertEnrollment (st : Store) (uid cid : Value) : Store :=
  { st with enrollment := st.enrollment ++ [{ user_id := uid, course_id := cid }] }

/-- Embeds enroll_student of src/database.py lines 210 to 218: a bare
insert_one into the enrollment collection, whose unique index on
(user_id, course_id) rejects a duplicate pair with the E11000 duplicate-key
error; enroll_student has no handler, so the error propagates to its
caller. -/
def enroll_student (st : Store) (user_id course_id : Value) : Except MongoError Store :=
  let e : EnrollmentDoc :=
    { user_id := to_object_id user_id, course_id := to_object_id course_id }
  if st.enrollment.any (fun r => decide (r.user_id = e.user_id ∧ r.course_id = e.course_id)) then
    Except.error MongoError.duplicateKey
  else
    Except.ok (insertEnrollment st e.user_id e.course_id)

/-- Outcomes of the enroll route of src/app.py. -/
inductive EnrollOutcome where
  | notStudent
  | alreadyEnrolled
  | enrolled
  deriving DecidableEq, Repr

/-- Embeds the enroll route of src/app.py lines 282 to 304: only a student
may enroll; the route first selects the (user, course) enrollment row and,
when one exists, flashes the already-enrolled message without inserting;
otherwise it inserts the row. -/
def enroll (st : Store) (current_user : UserDoc) (course_id : Value) :
    EnrollOutcome × Store :=
  if current_user.role = "student" then
    if st.enrollment.any (fun e =>
        decide (e.user_id = current_user.id ∧ e.course_id = course_id)) then
      (EnrollOutcome.alreadyEnrolled, st)
    else
      (EnrollOutcome.enrolled, insertEnrollment st current_user.id course_id)
  else (EnrollOutcome.notStudent, st)

/-- Embeds delete_attendance_for_date of src/database.py lines 329 to 332
and the DELETE statement of the take_attendance route of src/app.py lines
325 to 326: every attendance row of the given course and date is removed
and every other row is kept. -/
def delete_attendance_for_date (att : List AttendanceRow) (course_id : Value)
    (date : String) : List AttendanceRow :=
  att.filter (fun r => decide (¬(r.course_id = course_id ∧ r.date = date)))

/-- Embeds the roster query of the take_attendance route of src/app.py
lines 318 to 322 (the same join as get_course_students of src/database.py):
the ids of the student-role users joined with their enrollment rows for the
course, one output element per matching (user, enrollment) pair. -/
def course_roster (st : Store) (course_id : Value) : List Value :=
  (st.users.filter (fun u => decide (u.role = "student"))).flatMap
    (fun u =>
      (st.enrollment.filter (fun e =>
          decide (e.user_id = u.id ∧ e.course_id = course_id))).map (fun _ => u.id))

/-- The row the take_attendance route of src/app.py inserts for one roster
member: status present exactly when the id is among the submitted
student_ids, absent otherwise (line 329). -/
def attendance_row (course_id : Value) (date : String) (student_ids : List Value)
    (sid : Value) : AttendanceRow :=
  { student_id := sid, course_id := course_id, date := date,
    status := if sid ∈ student_ids then "present" else "absent" }

/-- Embeds the take_attendance route of src/app.py lines 306 to 337: read
the roster, delete every attendance row of (course_id, date), then insert
one fresh row per roster member. -/
def take_attendance (st : Store) (course_id : Value) (date : String)
    (student_ids : List Value) : Store :=
  let roster := course_roster st course_id
  { st with attendance :=
      delete_attendance_for_date st.attendance course_id date ++
        roster.map (attendance_row course_id date student_ids) }

/-- The attendance table after each write of the take_attendance route, in
order: element 0 is the state right after the DELETE statement and before
the first INSERT, element k the state after k INSERT statements, and the
last element the final state. On the document backend this sequence runs
with no enclosing transaction, so each element is observable by a
concurrent reader. -/
def take_attendance_states (st : Store) (course_id : Value) (date : String)
    (student_ids : List Value) : List (List AttendanceRow) :=
  let roster := course_roster st course_id
  let cleared := delete_attendance_for_date st.attendance course_id date
  (List.range (roster.length + 1)).map
    (fun k => cleared ++ (roster.take k).map (attendance_row course_id date student_ids))

/-- The attendance rows of one (course_id, date) snapshot. -/
def rowsFor (att : List AttendanceRow) (course_id : Value) (date : String) :
    List AttendanceRow :=
  att.filter (fun r => decide (r.course_id = course_id ∧ r.date = date))

/-- Embeds create_reply of src/database.py lines 284 to 294: a plain append
to the replies collection; the fresh _id and the clock reading are passed
in. -/
def create_reply (st : Store) (post_id user_id : Value) (content : String)
    (newId : Value) (now : Nat) : Store :=
  { st with replies := st.replies ++
    [{ id := newId, post_id := to_object_id post_id, user_id := to_object_id user_id,
       content := content, timestamp := now }] }

/-- A post as the aggregation of get_course_posts returns it: the post, the
looked up author username, and the computed reply_count. -/
structure PostAgg where
  post : PostDoc
  username : Option String
  reply_count : Nat
  deriving DecidableEq, Repr

/-- The descending-timestamp order of the final sort stage of
get_course_posts (sort on timestamp with direction minus one). -/
def postAggRel (a b : PostAgg) : Prop :=
  b.post.timestamp ≤ a.post.timestamp

instance : DecidableRel postAggRel := fun a b =>
  Nat.decLe b.post.timestamp a.post.timestamp

instance : IsTotal PostAgg postAggRel :=
  ⟨fun a b => Nat.le_total b.post.timestamp a.post.timestamp⟩

instance : IsTrans PostAgg postAggRel :=
  ⟨fun _ _ _ hab hbc => Nat.le_trans hbc hab⟩

/-- The per-post aggregation stage of get_course_posts: look up the author
of the post, count the replies whose post_id matches (the size of the
looked-up replies array, recomputed from the replies collection on every
call), and project the arrays away. -/
def postAggOf (st : Store) (p : PostDoc) : PostAgg :=
  { post := p,
    username := (st.users.find? (fun u => decide (u.id = p.user_id))).map
      (fun u => u.username),
    reply_count := (st.replies.filter (fun r => decide (r.post_id = p.id))).length }

/-- Embeds get_course_posts of src/database.py lines 247 to 270: match the
posts of the course, aggregate each matched post with postAggOf and sort by
timestamp descending. -/
def get_course_posts (st : Store) (course_id : Value) : List PostAgg :=
  List.insertionSort postAggRel
    ((st.posts.filter (fun p => decide (p.course_id = to_object_id course_id))).map
      (postAggOf st))

/-- Outcome type of the identifier-normalization contract of the
specification. -/
inductive IdOutcome where
  | okId (v : Value)
  | invalidIdentifier
  deriving DecidableEq, Repr

/-- Claim-side contract of the identifier normalizer, written from the
words of the specification (section 4.1) for comparison with to_object_id:
accept the native key unchanged, convert a canonical string encoding, and
fail with InvalidIdentifier, never a crash, on malformed input. -/
def normalizeSpec (v : Value) : IdOutcome :=
  match v with
  | .oid s => IdOutcome.okId (Value.oid s)
  | .str s =>
      if isValidObjectIdHex s then IdOutcome.okId (Value.oid s.toLower)
      else IdOutcome.invalidIdentifier
  | .int _ => IdOutcome.invalidIdentifier

/-! Concrete documents and stores used by the closed theorems below. -/

def emptyStore : Store :=
  { users := [], courses := [], enrollment := [], attendance := [], posts := [], replies := [] }

def aliceId : Value := Value.oid "a1"

def bobId : Value := Value.oid "b1"

def carolId : Value := Value.oid "c1"

def teachId : Value := Value.oid "t1"

def courseK : Value := Value.oid "k1"

def alice : UserDoc := { id := aliceId, username := "alice", role := "student" }

def bob : UserDoc := { id := bobId, username := "bob", role := "student" }

def carol : UserDoc := { id := carolId, username := "carol", role := "student" }

def teach : UserDoc := { id := teachId, username := "teach", role := "teacher" }

def mathCourse : CourseDoc :=
  { id := courseK, title := "Math", description := "M", teacher_id := teachId }

/-- A store with the roster alice, bob, carol enrolled in one course. -/
def stRoster : Store :=
  { users := [teach, alice, bob, carol], courses := [mathCourse],
    enrollment := [{ user_id := aliceId, course_id := courseK },
                   { user_id := bobId, course_id := courseK },
                   { user_id := carolId, course_id := courseK }],
    attendance := [], posts := [], replies := [] }

/-- The roster store after one attendance snapshot for 2024-01-10 has
already been recorded (a single row, alice present). -/
def stRecorded : Store :=
  { stRoster with attendance :=
      [{ student_id := aliceId, course_id := courseK, date := "2024-01-10",
         status := "present" }] }

/-- A store holding only the student alice, used to call create_course with
a teacher id that resolves to a student-role user. -/
def stStudentOnly : Store := { emptyStore with users := [alice] }

/-- C2. The claim requires that no intermediate state of a resubmitted
recordAttendance write sequence has zero rows for the (course, date) pair.
The take_attendance route instead issues one DELETE of the whole snapshot
before the first INSERT: starting from a store whose snapshot for the date
holds one row, the state right after the DELETE (the head of the state
sequence) holds zero rows for that pair, while the final state holds the
full fresh snapshot. On the document backend this sequence runs without a
transaction, so the empty state is observable. -/
theorem c2_delete_opens_empty_window :
    (rowsFor stRecorded.attendance courseK "2024-01-10").length = 1 ∧
    (take_attendance_states stRecorded courseK "2024-01-10" [aliceId]).head? =
      some (delete_attendance_for_date stRecorded.attendance courseK "2024-01-10") ∧
    rowsFor (delete_attendance_for_date stRecorded.attendance courseK "2024-01-10")
        courseK "2024-01-10" = [] ∧
    (take_attendance_states stRecorded courseK "2024-01-10" [aliceId]).getLast? =
      some (take_attendance stRecorded courseK "2024-01-10" [aliceId]).attendance := by
  decide

/-- C3. Alice is enrolled in the sole course of the store, yet the course is
returned both by get_student_courses and by get_available_courses: the
sub-pipeline of the available-courses lookup compares each enrollment
course_id with a literal string instead of the let variable, its array is
always empty, and every course passes the size-zero filter. The two result
sets are therefore not disjoint, refuting the partition property the
specification states and the docstring of get_available_courses intends. -/
theorem c3_course_partition_violated :
    (get_student_courses stRoster aliceId).map (fun v => v.course.id) = [courseK] ∧
    (get_available_courses stRoster aliceId).map (fun v => v.course.id) = [courseK] := by
  decide

/-- C4 counterexample. The persistence-layer enroll operation of the
document backend, enroll_student, leaves one row after a duplicate enroll
of the same (user, course) pair, but its second call surfaces the raw
duplicate-key error of the unique index rather than an AlreadyEnrolled
outcome, refuting the claim as stated. -/
theorem c4_duplicate_key_counterexample :
    enroll_student emptyStore aliceId courseK =
      Except.ok (insertEnrollment emptyStore aliceId courseK) ∧
    enroll_student (insertEnrollment emptyStore aliceId courseK) aliceId courseK =
      Except.error MongoError.duplicateKey :=
  ⟨rfl, rfl⟩

/-- C6 counterexample. The store holds no teacher-role user at all, yet
create_course called with the student id of alice as teacherId succeeds and
inserts the course row: the persistence layer performs no teacher-role
validation and raises no ValidationError. -/
theorem c6_no_role_check_counterexample :
    create_course stStudentOnly "T" "D" aliceId courseK =
      Except.ok (courseK, { stStudentOnly with courses :=
        [{ id := courseK, title := "T", description := "D", teacher_id := aliceId }] }) ∧
    (stStudentOnly.users.filter (fun u => decide (u.role = "teacher"))).length = 0 :=
  ⟨rfl, rfl⟩

/-- C7 counterexample. On a malformed identifier token the normalizer
returns the token itself, unchanged: it does not report an
InvalidIdentifier outcome as the contract of the specification demands
(normalizeSpec shows what that contract would return). -/
theorem c7_no_invalid_outcome_counterexample :
    to_object_id (Value.str "not-an-objectid") = Value.str "not-an-objectid" ∧
    normalizeSpec (Value.str "not-an-objectid") = IdOutcome.invalidIdentifier := by
  decide

/-! Helper lemmas about the attendance write of the take_attendance route. -/

/-- Filtering a snapshot distributes over the concatenation of two
attendance tables. -/
theorem rowsFor_append (a b : List AttendanceRow) (cid : Value) (d : String) :
    rowsFor (a ++ b) cid d = rowsFor a cid d ++ rowsFor b cid d :=
  List.filter_append a b

/-- After the DELETE statement no row of the deleted (course, date) pair
remains. -/
theorem rowsFor_delete (att : List AttendanceRow) (cid : Value) (d : String) :
    rowsFor (delete_attendance_for_date att cid d) cid d = [] := by
  apply List.filter_eq_nil_iff.mpr
  intro r hr
  have := (List.mem_filter.mp hr).2
  simp only [decide_eq_true_eq] at this ⊢
  exact this

/-- Every row the INSERT loop writes carries the written course and date, so
the snapshot filter keeps all of them. -/
theorem rowsFor_inserted (roster : List Value) (cid : Value) (d : String)
    (P : List Value) :
    rowsFor (roster.map (attendance_row cid d P)) cid d =
      roster.map (attendance_row cid d P) := by
  apply List.filter_eq_self.mpr
  intro a ha
  rcases List.mem_map.mp ha with ⟨sid, _, rfl⟩
  simp [attendance_row]

/-- The take_attendance route writes only the attendance table: the other
collections of the final store are untouched. -/
theorem take_attendance_only_attendance (st : Store) (cid : Value) (d : String)
    (P : List Value) :
    (take_attendance st cid d P).users = st.users ∧
    (take_attendance st cid d P).courses = st.courses ∧
    (take_attendance st cid d P).enrollment = st.enrollment ∧
    (take_attendance st cid d P).posts = st.posts ∧
    (take_attendance st cid d P).replies = st.replies :=
  ⟨rfl, rfl, rfl, rfl, rfl⟩

/-- The roster read by a later operation is unchanged by a take_attendance
call, because that call writes only the attendance table. -/
theorem course_roster_take_attendance (st : Store) (cid : Value) (d : String)
    (P : List Value) (cid2 : Value) :
    course_roster (take_attendance st cid d P) cid2 = course_roster st cid2 := rfl

/-- The (course, date) snapshot after one take_attendance call is exactly
one fresh row per roster element, in roster order. -/
theorem rowsFor_take_attendance (st : Store) (cid : Value) (d : String)
    (P : List Value) :
    rowsFor (take_attendance st cid d P).attendance cid d =
      (course_roster st cid).map (attendance_row cid d P) := by
  show rowsFor (delete_attendance_for_date st.attendance cid d ++
      (course_roster st cid).map (attendance_row cid d P)) cid d = _
  rw [rowsFor_append, rowsFor_delete, rowsFor_inserted, List.nil_append]

/-- A list whose elements are all equal to one value and which has no
duplicates holds at most one element. -/
theorem length_le_one_of_nodup_const {α : Type} {l : List α} (h : l.Nodup)
    (a : α) (ha : ∀ x ∈ l, x = a) : l.length ≤ 1 := by
  cases l with
  | nil => simp
  | cons x t =>
      cases t with
      | nil => simp
      | cons y t2 =>
          exfalso
          have hx : x = a := ha x (by simp)
          have hy : y = a := ha y (by simp)
          have hnd := (List.nodup_cons.mp h).1
          have hxy : x = y := hx.trans hy.symm
          exact hnd (by rw [hxy]; exact List.mem_cons_self y t2)

/-- A list of at most one element has no duplicates. -/
theorem nodup_of_length_le_one {α : Type} {l : List α} (h : l.length ≤ 1) :
    l.Nodup := by
  cases l with
  | nil => exact List.nodup_nil
  | cons x t =>
      cases t with
      | nil => exact List.nodup_singleton x
      | cons y t2 => simp at h

/-- Under the unique index on (user_id, course_id) a single user has at most
one enrollment row for a given course. -/
theorem enrollment_filter_length_le_one {l : List EnrollmentDoc}
    (h : (l.map (fun e => (e.user_id, e.course_id))).Nodup) (uid cid : Value) :
    (l.filter (fun e => decide (e.user_id = uid ∧ e.course_id = cid))).length ≤ 1 := by
  have hsub : List.Sublist
      ((l.filter (fun e => decide (e.user_id = uid ∧ e.course_id = cid))).map
        (fun e => (e.user_id, e.course_id)))
      (l.map (fun e => (e.user_id, e.course_id))) :=
    List.Sublist.map _ (List.filter_sublist l)
  have hnd := List.Nodup.sublist hsub h
  have hconst : ∀ x ∈ (l.filter (fun e =>
      decide (e.user_id = uid ∧ e.course_id = cid))).map
        (fun e => (e.user_id, e.course_id)), x = (uid, cid) := by
    intro x hx
    rcases List.mem_map.mp hx with ⟨e, he, rfl⟩
    have h2 := (List.mem_filter.mp he).2
    simp only [decide_eq_true_eq] at h2
    simp [h2.1, h2.2]
  have := length_le_one_of_nodup_const hnd (uid, cid) hconst
  simpa using this

/-- The join the roster query performs yields pairwise-distinct student ids
in a well-formed store: user ids are unique and the unique enrollment index
admits at most one (user, course) row, so no id is emitted twice. -/
theorem course_roster_nodup (st : Store) (hwf : st.wf) (cid : Value) :
    (course_roster st cid).Nodup := by
  obtain ⟨hu, he⟩ := hwf
  unfold course_roster
  have husub : ((st.users.filter (fun u => decide (u.role = "student"))).map
      (fun u => u.id)).Nodup :=
    List.Nodup.sublist (List.Sublist.map _ (List.filter_sublist st.users)) hu
  set us := st.users.filter (fun u => decide (u.role = "student")) with hus
  clear_value us
  clear hus hu
  induction us with
  | nil => simp
  | cons u t ih =>
      rw [List.map_cons] at husub
      rw [List.flatMap_cons, List.nodup_append]
      have hids := List.nodup_cons.mp husub
      refine ⟨?_, ih hids.2, ?_⟩
      · apply nodup_of_length_le_one
        rw [List.length_map]
        exact enrollment_filter_length_le_one he u.id cid
      · intro x hx hx2
        rcases List.mem_map.mp hx with ⟨e, _, rfl⟩
        rcases List.mem_flatMap.mp hx2 with ⟨v, hv, hxv⟩
        rcases List.mem_map.mp hxv with ⟨e2, _, hes⟩
        exact hids.1 (List.mem_map.mpr ⟨v, hv, by simpa using hes⟩)

/-- Rows of students absent from a duplicate-free id list contribute nothing
to the per-student filter of the fresh snapshot. -/
theorem filter_attendance_row_not_mem {t : List Value} {sid : Value}
    (h : sid ∉ t) (cid : Value) (d : String) (P : List Value) :
    (t.map (attendance_row cid d P)).filter
      (fun r => decide (r.student_id = sid)) = [] := by
  apply List.filter_eq_nil_iff.mpr
  intro r hr
  rcases List.mem_map.mp hr with ⟨x, hx, rfl⟩
  simp only [attendance_row, decide_eq_true_eq]
  intro hxs
  exact h (hxs ▸ hx)

/-- In the fresh snapshot of a duplicate-free roster, each roster member
owns exactly one row. -/
theorem filter_attendance_row_count {roster : List Value} (h : roster.Nodup)
    (cid : Value) (d : String) (P : List Value) {sid : Value} (hs : sid ∈ roster) :
    ((roster.map (attendance_row cid d P)).filter
      (fun r => decide (r.student_id = sid))).length = 1 := by
  induction roster with
  | nil => cases hs
  | cons a t ih =>
      have hnd := List.nodup_cons.mp h
      rcases List.mem_cons.mp hs with rfl | hmem
      · simp only [List.map_cons, List.filter_cons]
        rw [if_pos (by simp [attendance_row])]
        rw [filter_attendance_row_not_mem hnd.1 cid d P]
        rfl
      · have hne : a ≠ sid := fun hety => hnd.1 (hety ▸ hmem)
        simp only [List.map_cons, List.filter_cons]
        rw [if_neg (by simp [attendance_row, hne])]
        exact ih hnd.2 hmem

/-- C1. Two successive recordAttendance submissions for the same course and
date, each marking a subset of the roster present, end with the second
submission as the only snapshot: the (K, d) rows of the final store are
exactly one fresh row per roster member in roster order, the row of a
member has status present exactly when the member is in the second
submitted set and absent otherwise, the row total equals the roster size,
each roster member owns exactly one row, and no row of the first submission
survives. -/
theorem c1_attendance_two_submissions (st : Store) (K : Value) (d : String)
    (P1 P2 : List Value) (hwf : st.wf)
    (hP1 : ∀ x ∈ P1, x ∈ course_roster st K)
    (hP2 : ∀ x ∈ P2, x ∈ course_roster st K) :
    rowsFor (take_attendance (take_attendance st K d P1) K d P2).attendance K d =
      (course_roster st K).map (attendance_row K d P2) ∧
    (rowsFor (take_attendance (take_attendance st K d P1) K d P2).attendance K d).length =
      (course_roster st K).length ∧
    (∀ sid ∈ course_roster st K,
      ((rowsFor (take_attendance (take_attendance st K d P1) K d P2).attendance K d).filter
        (fun r => decide (r.student_id = sid))).length = 1) ∧
    (∀ r ∈ rowsFor (take_attendance (take_attendance st K d P1) K d P2).attendance K d,
      r.status = if r.student_id ∈ P2 then "present" else "absent") := by
  have hsnap : rowsFor (take_attendance (take_attendance st K d P1) K d P2).attendance K d =
      (course_roster st K).map (attendance_row K d P2) := by
    rw [rowsFor_take_attendance, course_roster_take_attendance]
  refine ⟨hsnap, ?_, ?_, ?_⟩
  · rw [hsnap, List.length_map]
  · intro sid hsid
    rw [hsnap]
    exact filter_attendance_row_count (course_roster_nodup st hwf K) K d P2 hsid
  · intro r hr
    rw [hsnap] at hr
    rcases List.mem_map.mp hr with ⟨x, _, rfl⟩
    rfl

/-- C1 witness: the roster alice, bob, carol, first submission marking only
alice present, second marking bob and carol; the final snapshot is
alice absent, bob present, carol present, three rows in all. -/
theorem c1_attendance_two_submissions_witness :
    rowsFor (take_attendance (take_attendance stRoster courseK "2024-01-10" [aliceId])
        courseK "2024-01-10" [bobId, carolId]).attendance courseK "2024-01-10" =
      (course_roster stRoster courseK).map
        (attendance_row courseK "2024-01-10" [bobId, carolId]) ∧
    (rowsFor (take_attendance (take_attendance stRoster courseK "2024-01-10" [aliceId])
        courseK "2024-01-10" [bobId, carolId]).attendance courseK "2024-01-10").length =
      (course_roster stRoster courseK).length ∧
    (∀ sid ∈ course_roster stRoster courseK,
      ((rowsFor (take_attendance (take_attendance stRoster courseK "2024-01-10" [aliceId])
          courseK "2024-01-10" [bobId, carolId]).attendance courseK "2024-01-10").filter
        (fun r => decide (r.student_id = sid))).length = 1) ∧
    (∀ r ∈ rowsFor (take_attendance (take_attendance stRoster courseK "2024-01-10" [aliceId])
        courseK "2024-01-10" [bobId, carolId]).attendance courseK "2024-01-10",
      r.status = if r.student_id ∈ [bobId, carolId] then "present" else "absent") :=
  c1_attendance_two_submissions stRoster courseK "2024-01-10" [aliceId] [bobId, carolId]
    (by decide) (by decide) (by decide)

/-- C9. A recordAttendance call leaves every attendance row whose
(course_id, date) pair differs from the written one exactly in place, in
order, and touches no other collection: the route deletes only rows of the
written pair and inserts only rows of the written pair. -/
theorem c9_attendance_frame (st : Store) (K : Value) (d : String) (P : List Value) :
    (take_attendance st K d P).attendance.filter
        (fun r => decide (¬(r.course_id = K ∧ r.date = d))) =
      st.attendance.filter (fun r => decide (¬(r.course_id = K ∧ r.date = d))) ∧
    (take_attendance st K d P).users = st.users ∧
    (take_attendance st K d P).courses = st.courses ∧
    (take_attendance st K d P).enrollment = st.enrollment ∧
    (take_attendance st K d P).posts = st.posts ∧
    (take_attendance st K d P).replies = st.replies := by
  refine ⟨?_, rfl, rfl, rfl, rfl, rfl⟩
  show (delete_attendance_for_date st.attendance K d ++
      (course_roster st K).map (attendance_row K d P)).filter
        (fun r => decide (¬(r.course_id = K ∧ r.date = d))) = _
  rw [List.filter_append]
  have h1 : ((course_roster st K).map (attendance_row K d P)).filter
      (fun r => decide (¬(r.course_id = K ∧ r.date = d))) = [] := by
    apply List.filter_eq_nil_iff.mpr
    intro r hr
    rcases List.mem_map.mp hr with ⟨x, _, rfl⟩
    simp [attendance_row]
  have h2 : (delete_attendance_for_date st.attendance K d).filter
      (fun r => decide (¬(r.course_id = K ∧ r.date = d))) =
      delete_attendance_for_date st.attendance K d := by
    apply List.filter_eq_self.mpr
    intro r hr
    exact (List.mem_filter.mp hr).2
  rw [h1, h2, List.append_nil]
  rfl

/-- C4 amended. Calling the web-layer enroll route twice as a student
leaves exactly one Enrollment row for the pair and the second call reports
the already-enrolled outcome without writing; calling the document-layer
enroll_student twice also leaves exactly one row, because the unique index
rejects the duplicate insert, but its second call propagates the raw
duplicate-key error to the caller instead of an AlreadyEnrolled outcome. -/
theorem c4_enroll_idempotent_amended (st : Store) (u : UserDoc) (cid : Value)
    (uid mcid : Value) (hrole : u.role = "student")
    (h0 : ∀ e ∈ st.enrollment, ¬(e.user_id = u.id ∧ e.course_id = cid))
    (h1 : ∀ e ∈ st.enrollment,
      ¬(e.user_id = to_object_id uid ∧ e.course_id = to_object_id mcid)) :
    enroll st u cid = (EnrollOutcome.enrolled, insertEnrollment st u.id cid) ∧
    enroll (insertEnrollment st u.id cid) u cid =
      (EnrollOutcome.alreadyEnrolled, insertEnrollment st u.id cid) ∧
    ((insertEnrollment st u.id cid).enrollment.filter
      (fun e => decide (e.user_id = u.id ∧ e.course_id = cid))).length = 1 ∧
    enroll_student st uid mcid =
      Except.ok (insertEnrollment st (to_object_id uid) (to_object_id mcid)) ∧
    enroll_student (insertEnrollment st (to_object_id uid) (to_object_id mcid)) uid mcid =
      Except.error MongoError.duplicateKey ∧
    ((insertEnrollment st (to_object_id uid) (to_object_id mcid)).enrollment.filter
      (fun e => decide (e.user_id = to_object_id uid ∧
        e.course_id = to_object_id mcid))).length = 1 := by
  have hany0 : st.enrollment.any
      (fun e => decide (e.user_id = u.id ∧ e.course_id = cid)) = false := by
    simp only [List.any_eq_false, decide_eq_true_eq]
    exact h0
  have hany1 : st.enrollment.any
      (fun e => decide (e.user_id = to_object_id uid ∧
        e.course_id = to_object_id mcid)) = false := by
    simp only [List.any_eq_false, decide_eq_true_eq]
    exact h1
  have hfil0 : st.enrollment.filter
      (fun e => decide (e.user_id = u.id ∧ e.course_id = cid)) = [] := by
    apply List.filter_eq_nil_iff.mpr
    intro e he
    simpa using h0 e he
  have hfil1 : st.enrollment.filter
      (fun e => decide (e.user_id = to_object_id uid ∧
        e.course_id = to_object_id mcid)) = [] := by
    apply List.filter_eq_nil_iff.mpr
    intro e he
    simpa using h1 e he
  refine ⟨?_, ?_, ?_, ?_, ?_, ?_⟩
  · simp only [enroll, hrole, hany0, if_true, if_false, Bool.false_eq_true, ite_false, ite_true]
  · simp [enroll, hrole, insertEnrollment]
  · simp only [insertEnrollment, List.filter_append, hfil0, List.nil_append]
    simp
  · simp [enroll_student, hany1]
    intro x hx hux hcx
    exact h1 x hx ⟨hux, hcx⟩
  · simp [enroll_student, insertEnrollment]
  · simp only [insertEnrollment, List.filter_append, hfil1, List.nil_append]
    simp

/-- C4 witness: in the empty store, alice enrolls through the route and
through enroll_student; each second call finds the single row in place. -/
theorem c4_enroll_idempotent_amended_witness :
    enroll emptyStore alice courseK =
      (EnrollOutcome.enrolled, insertEnrollment emptyStore alice.id courseK) ∧
    enroll (insertEnrollment emptyStore alice.id courseK) alice courseK =
      (EnrollOutcome.alreadyEnrolled, insertEnrollment emptyStore alice.id courseK) ∧
    ((insertEnrollment emptyStore alice.id courseK).enrollment.filter
      (fun e => decide (e.user_id = alice.id ∧ e.course_id = courseK))).length = 1 ∧
    enroll_student emptyStore bobId courseK =
      Except.ok (insertEnrollment emptyStore (to_object_id bobId) (to_object_id courseK)) ∧
    enroll_student (insertEnrollment emptyStore (to_object_id bobId)
        (to_object_id courseK)) bobId courseK =
      Except.error MongoError.duplicateKey ∧
    ((insertEnrollment emptyStore (to_object_id bobId) (to_object_id courseK)).enrollment.filter
      (fun e => decide (e.user_id = to_object_id bobId ∧
        e.course_id = to_object_id courseK))).length = 1 :=
  c4_enroll_idempotent_amended emptyStore alice courseK bobId courseK rfl
    (by simp [emptyStore]) (by simp [emptyStore])

/-- C5. An aggregated entry belongs to the result of get_teacher_courses
exactly when its course is a stored course owned by the queried teacher and
its enrolled_count equals the number of enrollment rows referencing the
course; in particular a course of the teacher with zero enrollment rows is
returned with enrolled_count zero rather than omitted. -/
theorem c5_teacher_courses_complete (st : Store) (tid : Value) (c : CourseDoc) (n : Nat) :
    ({ course := c, enrolled_count := n } : CourseAgg) ∈ get_teacher_courses st tid ↔
      (c ∈ st.courses ∧ c.teacher_id = to_object_id tid ∧
        n = (st.enrollment.filter (fun e => decide (e.course_id = c.id))).length) := by
  simp only [get_teacher_courses, List.mem_map, List.mem_filter,
    decide_eq_true_eq, CourseAgg.mk.injEq]
  constructor
  · rintro ⟨a, ⟨hmem, hteach⟩, rfl, rfl⟩
    exact ⟨hmem, hteach, rfl⟩
  · rintro ⟨hmem, hteach, rfl⟩
    exact ⟨c, ⟨hmem, hteach⟩, rfl, rfl⟩

/-- C6 amended. The persistence-layer create_course performs no
teacher-role validation: whenever teacherId is not a malformed identifier
string it inserts the Course row and returns the new id, whether or not
teacherId resolves to a teacher-role user (its only failure is the
InvalidId raise on a malformed string id). The teacher-role check lives
only in the web route, which rejects a non-teacher logged-in user and
creates no row. -/
theorem c6_create_course_amended (st : Store) (title descr : String)
    (tid newId : Value) (hid : ∀ s, tid = Value.str s → isValidObjectIdHex s = true)
    (u : UserDoc) (hrole : ¬ u.role = "teacher") :
    create_course st title descr tid newId =
      Except.ok (newId, { st with courses := st.courses ++
        [{ id := newId, title := title, description := descr,
           teacher_id := to_object_id tid }] }) ∧
    create_course_route st u title descr newId = none := by
  constructor
  · cases tid with
    | str s =>
        have hv := hid s rfl
        simp [create_course, to_object_id, hv]
    | oid s => rfl
    | int n => rfl
  · simp [create_course_route, hrole]

/-- C6 witness: with a well-formed teacher id and the student alice as the
logged-in user, the layer inserts and the route refuses. -/
theorem c6_create_course_amended_witness :
    create_course emptyStore "T" "D" teachId courseK =
      Except.ok (courseK, { emptyStore with courses := emptyStore.courses ++
        [{ id := courseK, title := "T", description := "D",
           teacher_id := to_object_id teachId }] }) ∧
    create_course_route emptyStore alice "T" "D" courseK = none :=
  c6_create_course_amended emptyStore "T" "D" teachId courseK
    (by intro s hs; simp [teachId] at hs) alice (by decide)

/-- C7 amended. On a malformed identifier string the normalizer never
raises and returns the token itself unchanged, rather than reporting the
InvalidIdentifier outcome of the contract (normalizeSpec); a caller such as
get_user_by_id observes the malformed identifier as not-found, returning
none for every store. -/
theorem c7_normalize_amended (s : String) (h : isValidObjectIdHex s = false) :
    to_object_id (Value.str s) = Value.str s ∧
    (∀ st : Store, get_user_by_id st (Value.str s) = none) ∧
    normalizeSpec (Value.str s) = IdOutcome.invalidIdentifier := by
  refine ⟨?_, ?_, ?_⟩ <;> simp [to_object_id, get_user_by_id, normalizeSpec, h]

/-- C7 witness at the malformed token zzz. -/
theorem c7_normalize_amended_witness :
    to_object_id (Value.str "zzz") = Value.str "zzz" ∧
    (∀ st : Store, get_user_by_id st (Value.str "zzz") = none) ∧
    normalizeSpec (Value.str "zzz") = IdOutcome.invalidIdentifier :=
  c7_normalize_amended "zzz" (by decide)

/-- C8. The result of get_course_posts is a permutation of the aggregated
posts of the course (exactly the posts whose course_id matches, no more and
no fewer), it is pairwise ordered by descending timestamp, and every
returned entry carries the live reply_count (the number of reply rows of
the current store whose post_id matches) and the looked-up author
username. -/
theorem c8_course_posts_sorted_live (st : Store) (cid : Value) :
    List.Perm ((get_course_posts st cid).map (fun x => x.post))
      (st.posts.filter (fun p => decide (p.course_id = to_object_id cid))) ∧
    List.Pairwise postAggRel (get_course_posts st cid) ∧
    ∀ x ∈ get_course_posts st cid,
      x.reply_count = (st.replies.filter (fun r => decide (r.post_id = x.post.id))).length ∧
      x.username = (st.users.find? (fun u => decide (u.id = x.post.user_id))).map
        (fun u => u.username) := by
  have hperm := List.perm_insertionSort postAggRel
    ((st.posts.filter (fun p => decide (p.course_id = to_object_id cid))).map (postAggOf st))
  refine ⟨?_, ?_, ?_⟩
  · have h1 := hperm.map (fun x : PostAgg => x.post)
    rw [List.map_map] at h1
    have h2 : ((fun x : PostAgg => x.post) ∘ postAggOf st) = fun p => p := rfl
    rw [h2, List.map_id'] at h1
    exact h1
  · exact List.sorted_insertionSort postAggRel _
  · intro x hx
    have hx2 := hperm.mem_iff.mp hx
    rcases List.mem_map.mp hx2 with ⟨p, _, rfl⟩
    exact ⟨rfl, rfl⟩

/-- C10. The identifier converter is a total function: a non-string value
of any shape is returned unchanged, and a string that the ObjectId
constructor rejects is returned unchanged as the very same string value,
which is never equal to an ObjectId value, so a query keyed on an ObjectId
field matches no document for it. -/
theorem c10_to_object_id_total (v : Value) :
    ((∀ s, v ≠ Value.str s) → to_object_id v = v) ∧
    (∀ s, v = Value.str s → isValidObjectIdHex s = false →
      to_object_id v = v ∧ ∀ h, v ≠ Value.oid h) := by
  cases v with
  | oid s =>
      refine ⟨fun _ => rfl, ?_⟩
      intro s2 hs
      cases hs
  | str s =>
      constructor
      · intro hno
        exact absurd rfl (hno s)
      · intro s2 hs hval
        cases hs
        refine ⟨?_, ?_⟩
        · simp [to_object_id, hval]
        · intro h
          simp
  | int n =>
      refine ⟨fun _ => rfl, ?_⟩
      intro s2 hs
      cases hs

end RemoteClassroom
